import Mathlib

/-!
Verification of the kube_api Job lifecycle controller (src/jobs.py, src/pods.py,
src/utils.py) against its natural-language specification.

Shallow embedding conventions:
* Python values flowing through the dynamic dictionaries are modelled by `Val`.
* A Python dict is a `Dict` (association list with string keys; the kubernetes
  client produces dicts with unique keys, and `dict.get` is first-match lookup).
* The Cluster Gateway is modelled as a script `gw : List Dict` of the responses
  `api_request` would produce, consumed one element per issued request; every
  embedded operation returns the remaining script and a count of the requests
  it issued, so "no new gateway call" is expressible.
* A Python `raise` crossing an embedded function's boundary is an
  `Except.error` carrying a `PyErr`.
-/

/-- A Python value as it appears in the controller's dynamic payloads. -/
inductive Val where
  | vNone
  | vBool (b : Bool)
  | vInt (n : Int)
  | vStr (s : String)
  | vList (xs : List Val)
  | vDict (fields : List (String × Val))

/-- A Python dict payload: keys are strings, values arbitrary. -/
abbrev Dict := List (String × Val)

/-- Python truthiness (`bool(x)`) for the payload values the controller probes. -/
def truthy : Val → Bool
  | .vNone => false
  | .vBool b => b
  | .vInt n => n != 0
  | .vStr s => s != ""
  | .vList xs => !xs.isEmpty
  | .vDict fs => !fs.isEmpty

/-- `d.get(k, dflt)` on a Python dict. -/
def dget (d : Dict) (k : String) (dflt : Val) : Val :=
  match d.lookup k with
  | some v => v
  | none => dflt

/-- `d.get(k)` on a Python dict (default `None`). -/
def dlook (d : Dict) (k : String) : Val :=
  dget d k .vNone

/-- `v == lit` for a string literal, as Python `==` evaluates it on our values. -/
def isStr (v : Val) (lit : String) : Bool :=
  match v with
  | .vStr s => s == lit
  | _ => false

/-- A container added by `Job.add_container` (a `V1Container`).  Only its
presence matters to the verified claims (`create` checks the list is
non-empty); the structural fields are carried for fidelity of the record. -/
structure Container where
  name : String
  image : String
  command : List String
  args : List String

/-- The mutable state of a `Job` object (jobs.py `Job.__init__`).
`status` is the private `__status` cache (`None` initially, later the last
snapshot observed for a non-active job); `logs` is the private `__logs`
cache (`None` initially). -/
structure Job where
  job_name : String
  namespace' : String
  job_spec : Dict
  pod_spec : Dict
  containers : List Container
  volumes : List Val
  creation_response : Dict
  status : Option Dict
  logs : Val

/-- A freshly constructed `Job(job_name, namespace)`. -/
def Job.init (job_name : String) (namespace' : String) : Job :=
  { job_name := job_name
    namespace' := namespace'
    job_spec := []
    pod_spec := []
    containers := []
    volumes := []
    creation_response := []
    status := none
    logs := .vNone }

/-- Truthiness of the `__status` cache as tested by `if self.__status and use_cache`
(`None` is falsy, an empty dict is falsy, a non-empty dict is truthy). -/
def statusCacheTruthy (j : Job) : Bool :=
  match j.status with
  | some d => !d.isEmpty
  | none => false

/-- `Job.info(use_cache)` (jobs.py).  Returns the response the caller sees, the
updated job, the rest of the gateway script, and the number of gateway calls
issued (0 when the cache answered, 1 when `read_namespaced_job_status` ran).

Source:
```
if self.__status and use_cache: return self.__status
s = api_request(api.read_namespaced_job_status, self.job_name, self.namespace)
job_status = s.get("status", dict())
if isinstance(job_status, dict) and not job_status.get("active"):
    self.__status = s
return s
``` -/
def Job.info (j : Job) (use_cache : Bool) (gw : List Dict) :
    Dict × Job × List Dict × Nat :=
  if statusCacheTruthy j && use_cache then
    (j.status.getD [], j, gw, 0)
  else
    let s := gw.headD []
    let job_status := dget s "status" (.vDict [])
    let j' :=
      match job_status with
      | .vDict d => if truthy (dlook d "active") then j else { j with status := some s }
      | _ => j
    (s, j', gw.tail, 1)

/-- `Job.status()` (jobs.py): `return self.info()` with the default cache. -/
def Job.statusCall (j : Job) (gw : List Dict) : Dict × Job × List Dict × Nat :=
  j.info true gw

/-- The `Job.server_status` property: `self.info().get("status", dict())`,
coerced to an empty dict when not a mapping. -/
def Job.server_status (j : Job) (gw : List Dict) : Dict × Job × List Dict × Nat :=
  let r := j.info true gw
  match dget r.1 "status" (.vDict []) with
  | .vDict d => (d, r.2.1, r.2.2.1, r.2.2.2)
  | _ => ([], r.2.1, r.2.2.1, r.2.2.2)

/-- The `Job.is_active` property: `self.server_status.get("active")`. -/
def Job.is_active (j : Job) (gw : List Dict) : Val × Job × List Dict × Nat :=
  let r := j.server_status gw
  (dlook r.1 "active", r.2.1, r.2.2.1, r.2.2.2)

/-- Observable effects of one `wait` loop iteration: the `time.sleep(interval)`
call and the `self.status()` status check that follows it. -/
inductive Event where
  | sleep (n : Nat)
  | check
deriving DecidableEq

/-- A Python exception escaping an embedded function. -/
inductive PyErr where
  | attributeError
  | typeError
deriving DecidableEq

/-- Outcome of one `wait` loop body after the status check. -/
inductive WaitStep where
  | done (j : Job) (gw : List Dict)
  | next (j : Job) (gw : List Dict)
  | raised

/-- The decision logic of one `wait` iteration (jobs.py `Job.wait` body):
```
status = self.status().get("status", {})
if status.get("succeeded"): return self
elif status.get("failed"): return self
elif not status.get("active"): return self
```
`status.get(...)` is attribute access on whatever `s.get("status", {})`
returned: when that value is not a dict (for instance the integer `status`
field of an `api_request` error payload) Python raises `AttributeError`,
modelled by `.raised`. -/
def Job.waitStep (j : Job) (gw : List Dict) : WaitStep :=
  let r := j.statusCall gw
  match dget r.1 "status" (.vDict []) with
  | .vDict st =>
    if truthy (dlook st "succeeded") then .done r.2.1 r.2.2.1
    else if truthy (dlook st "failed") then .done r.2.1 r.2.2.1
    else if !truthy (dlook st "active") then .done r.2.1 r.2.2.1
    else .next r.2.1 r.2.2.1
  | _ => .raised

/-- The `while counter < timeout` loop of `Job.wait` (jobs.py; Python defaults
`interval=20`, `timeout=7200`).  Each iteration sleeps `interval`, performs the
status check, and either returns `self` (carried as the updated job) or
continues with `counter += interval`.  The event trace records the sleeps and
checks in order.  An `AttributeError` raised by the status check propagates as
`Except.error` (the job object is mutated by `info` before the raise, but the
exception aborts `wait`, so no state is returned along that path). -/
def Job.waitLoop (interval : Nat) (hpos : 0 < interval) (timeout : Nat)
    (j : Job) (gw : List Dict) (counter : Nat) :
    List Event × Except PyErr (Job × List Dict) :=
  if h : counter < timeout then
    match j.waitStep gw with
    | .done j₁ gw₁ => ([.sleep interval, .check], .ok (j₁, gw₁))
    | .raised => ([.sleep interval, .check], .error .attributeError)
    | .next j₁ gw₁ =>
      let r := Job.waitLoop interval hpos timeout j₁ gw₁ (counter + interval)
      (.sleep interval :: .check :: r.1, r.2)
  else ([], .ok (j, gw))
termination_by timeout - counter
decreasing_by omega

/-- `Job.wait(interval, timeout)` (jobs.py): the loop started at `counter = 0`. -/
def Job.wait (j : Job) (gw : List Dict) (interval : Nat) (hpos : 0 < interval)
    (timeout : Nat) : List Event × Except PyErr (Job × List Dict) :=
  Job.waitLoop interval hpos timeout j gw 0

/-- `base.update(upd)` on Python dicts: keys already in `base` keep their
position but take the updated value; new keys are appended in order. -/
def dictUpdate (base upd : Dict) : Dict :=
  base.map (fun p =>
    match upd.lookup p.1 with
    | some v => (p.1, v)
    | none => p) ++
  upd.filter (fun q => (base.lookup q.1).isNone)

/-- One interaction with the kubernetes client inside `api_request` (utils.py):
either the call returns an object (its `.to_dict()` payload), or it raises an
`ApiException` carrying an HTTP status, a reason, headers, and a JSON body. -/
inductive GwOutcome where
  | ok (d : Dict)
  | exc (status : Int) (reason : String) (headers : String) (body : Dict)

/-- `api_request` (utils.py): a successful call yields the response's dict; an
`ApiException` is converted to the structured error payload
`{"status": e.status, "error": e.reason, "headers": stringify(e.headers)}`
updated with the fields decoded from the exception body. -/
def api_request : GwOutcome → Dict
  | .ok d => d
  | .exc status reason headers body =>
      dictUpdate [("status", .vInt status), ("error", .vStr reason),
                  ("headers", .vStr headers)] body

/-- The `for pod_name in self.pod_names():` loop of `Job.logs` (jobs.py).
`infos` lists, in discovery order, the `pod.info()` payload of each pod the
Pod Locator found (each `pod.info()` call performs that pod's read and log
fetches, so consuming an element is querying that pod).  The accumulator is
the running `job_logs` (initially `None`).  Returns the final `job_logs` and
the number of pods whose `pod.info()` was called:
```
for pod_name in self.pod_names():
    pod_info = pod.info()
    pod_status = pod_info.get("status", {})
    if isinstance(pod_status, dict): phase = pod_status.get("phase")
    else: phase = ""
    job_logs = pod_info.get("logs")
    if phase == "Succeeded": break
```
The `phase` computation is split out as `podPhase` below. -/
def podPhase (pod_info : Dict) : Val :=
  match dget pod_info "status" (.vDict []) with
  | .vDict st => dlook st "phase"
  | _ => .vStr ""

/-- Whether a pod-info payload reports phase exactly `"Succeeded"`. -/
def isSucceededInfo (pod_info : Dict) : Bool :=
  isStr (podPhase pod_info) "Succeeded"

/-- The pod loop of `Job.logs` itself (see the comment on `podPhase`). -/
def logsLoop : List Dict → Val → Val × Nat
  | [], acc => (acc, 0)
  | pod_info :: rest, acc =>
    let job_logs := dget pod_info "logs" .vNone
    if isStr (podPhase pod_info) "Succeeded" then (job_logs, 1)
    else
      let r := logsLoop rest job_logs
      (r.1, r.2 + 1)

/-- `Job.logs(use_cache)` (jobs.py).  `infos` is the sequence of pod-info
payloads the discovered pods would report (see `logsLoop`); `gw` is the
job-status gateway script consumed by the trailing `self.is_active` read.
Returns `(job_logs, updated job, remaining status script, pod-list queries,
pod-info queries)`: the cache-hit path performs no pod enumeration
(`pod_names()` not called, 0 list queries) and no pod-info fetches; the
aggregation path calls `pod_names()` once (1 list query) and fetches as many
pod infos as the loop consumed, then caches the result iff
`not self.is_active`. -/
def Job.logsCall (j : Job) (use_cache : Bool) (infos : List Dict)
    (gw : List Dict) : Val × Job × List Dict × Nat × Nat :=
  if truthy j.logs && use_cache then (j.logs, j, gw, 0, 0)
  else
    let r := logsLoop infos .vNone
    let a := j.is_active gw
    let j₂ := if truthy a.1 then a.2.1 else { a.2.1 with logs := r.1 }
    (r.1, j₂, a.2.2.1, 1, r.2)

/-- The per-container accumulation of `Pod.logs` (pods.py): a string response
is appended; a dict response contributes its `"message"` value when that value
is truthy; anything else is skipped silently:
```
if isinstance(container_logs, str): pod_logs.append(container_logs)
else:
    if isinstance(container_logs, dict):
        message = container_logs.get("message")
        if message: pod_logs.append(container_logs.get("message"))
``` -/
def podLogContribs : List Val → List Val
  | [] => []
  | container_logs :: rest =>
    match container_logs with
    | .vStr s => .vStr s :: podLogContribs rest
    | .vDict d =>
      let message := dlook d "message"
      if truthy message then message :: podLogContribs rest
      else podLogContribs rest
    | _ => podLogContribs rest

/-- The separator `"\n" + "-" * 40 + "\n"` used by `Pod.logs`. -/
def sepLine : String := "\n" ++ String.mk (List.replicate 40 '-') ++ "\n"

/-- All-strings check backing Python `sep.join(lst)`, which raises `TypeError`
when some element is not a string. -/
def allStrs : List Val → Option (List String)
  | [] => some []
  | .vStr s :: rest => (allStrs rest).map (s :: ·)
  | _ :: _ => none

/-- Whether a value is a Python dict (`isinstance(x, dict)`). -/
def isDictV : Val → Bool
  | .vDict _ => true
  | _ => false

/-- `Pod.logs(containers)` (pods.py), abstracted over the `api_request` results
of the per-container log fetches (`fetches` lists them in container order).
After the loop the contributions are joined; `join` raises `TypeError` on a
non-string contribution (a truthy non-string `"message"`).  The final source
check `if isinstance(pod_logs, dict): return None` runs on the joined value,
which is always a string, so the `None` branch is kept in the return type but
is provably unreachable. -/
def Pod.logs (fetches : List Val) : Except PyErr (Option String) :=
  let contribs := podLogContribs fetches
  match allStrs contribs with
  | none => .error .typeError
  | some ss =>
    let pod_logs := String.intercalate sepLine ss
    if isDictV (.vStr pod_logs) then .ok none else .ok (some pod_logs)

/-- `Job.create(job_spec, pod_spec)` (jobs.py).  The container check precedes
any gateway interaction; when it fails, `ValueError` is raised with the job
object untouched and no request issued.  Otherwise the assembled `V1Job` body
is submitted through `api_request(api.create_namespaced_job, ...)` (one
gateway call) and the response recorded as `creation_response`.  The `V1Job`
body assembly itself is a pure construction for the external client and is
opaque to the claims, so only the submission is modelled. -/
def Job.create (j : Job) (job_spec pod_spec : Option Dict) (gw : List Dict) :
    Except String Dict × Job × List Dict × Nat :=
  let _job_spec := job_spec.getD j.job_spec
  let _pod_spec := pod_spec.getD j.pod_spec
  if j.containers.isEmpty then
    (.error "Containers not found. Use add_containers() to specify containers before creating the job.",
     j, gw, 0)
  else
    let response := gw.headD []
    (.ok response, { j with creation_response := response }, gw.tail, 1)

/-- ASCII membership test for the regex character class `[^0-9a-zA-Z]`
(complemented): `isAlnum c` holds exactly on `0-9`, `A-Z`, `a-z`. -/
def isAlnum (c : Char) : Bool :=
  (48 ≤ c.toNat && c.toNat ≤ 57) || (65 ≤ c.toNat && c.toNat ≤ 90) ||
  (97 ≤ c.toNat && c.toNat ≤ 122)

/-- The whitespace set of Python `str.strip()` (ASCII portion). -/
def isPySpace (c : Char) : Bool :=
  c = ' ' || c = '\t' || c = '\n' || c = '\r' || c = '\x0b' || c = '\x0c'

/-- Python `str.strip()`: drop leading and trailing whitespace. -/
def pyStrip (s : List Char) : List Char :=
  ((s.dropWhile isPySpace).reverse.dropWhile isPySpace).reverse

/-- `re.sub('[^0-9a-zA-Z]+', '-', s)`: each maximal run of non-alphanumeric
characters becomes a single hyphen. -/
def subRuns : List Char → List Char
  | [] => []
  | c :: rest =>
    if isAlnum c then c :: subRuns rest
    else '-' :: subRuns (rest.dropWhile (fun d => !isAlnum d))
termination_by l => l.length
decreasing_by
  all_goals simp only [List.length_cons]
  · omega
  · exact Nat.lt_succ_of_le (List.dropWhile_sublist _).length_le

/-- Python `str.lower()` on the ASCII range: `A-Z` maps to `a-z`, everything
else (in particular digits and `-`, the only other characters the pipeline
feeds it) is unchanged. -/
def pyLowerChar (c : Char) : Char :=
  if 65 ≤ c.toNat && c.toNat ≤ 90 then Char.ofNat (c.toNat + 32) else c

/-- The normalised prefix of `Job.generate_job_name`:
`re.sub('[^0-9a-zA-Z]+', '-', str(prefix).strip()).lower()`. -/
def normalizePrefix (p : String) : List Char :=
  (subRuns (pyStrip p.toList)).map pyLowerChar

/-- `Job.generate_job_name(prefix, n)` (jobs.py), with the random draw made
explicit: `suffix` stands for the characters produced by
`''.join(random.choice(string.ascii_lowercase) for _ in range(n))`.
```
if prefix:
    job_name = re.sub('[^0-9a-zA-Z]+', '-', str(prefix).strip()).lower() + "-"
else:
    job_name = ""
job_name += <random suffix>
``` -/
def Job.generate_job_name (pfx : String) (suffix : List Char) : String :=
  let job_name := if pfx != "" then String.mk (normalizePrefix pfx) ++ "-" else ""
  job_name ++ String.mk suffix

/-- The grammar of cluster resource names as the spec states it for this
generator: lowercase letters, digits, and hyphens. -/
def isNameChar (c : Char) : Bool :=
  (48 ≤ c.toNat && c.toNat ≤ 57) || (97 ≤ c.toNat && c.toNat ≤ 122) || c.toNat = 45

/-- The 26 lowercase ASCII letters (`string.ascii_lowercase`). -/
def ascii_lowercase : List Char := "abcdefghijklmnopqrstuvwxyz".toList

/-! ## Helper lemmas -/

/-- `info` answered from the cache when the cached snapshot is truthy. -/
theorem Job.info_hit (j : Job) (gw : List Dict) (hc : statusCacheTruthy j = true) :
    j.info true gw = (j.status.getD [], j, gw, 0) := by
  simp [Job.info, hc]

/-- `info` issues a gateway request when the cache cannot answer. -/
theorem Job.info_miss (j : Job) (use_cache : Bool) (gw : List Dict)
    (hc : (statusCacheTruthy j && use_cache) = false) :
    j.info use_cache gw =
      (gw.headD [],
       (match dget (gw.headD []) "status" (.vDict []) with
        | .vDict d => if truthy (dlook d "active") then j else { j with status := some (gw.headD []) }
        | _ => j),
       gw.tail, 1) := by
  simp only [Job.info, hc, Bool.false_eq_true, if_false]

/-- A lookup that found a key forces the dict to be non-empty. -/
theorem lookup_isSome_ne_nil {d : Dict} {k : String}
    (h : (d.lookup k).isSome = true) : d ≠ [] := by
  intro he
  subst he
  simp [List.lookup] at h

/-! ## C1: a terminal snapshot is cached and never refetched -/

/-- C1: once `status()` returns a snapshot whose `status` mapping has `active`
falsy and a terminal field (`succeeded` or `failed`) set, every subsequent
`status()` call with default caching returns the identical snapshot with the
job state, the gateway script, and hence the gateway call count (0) unchanged:
the second call is a fixed point, so all later calls behave identically. -/
theorem c1_terminal_snapshot_cached (j : Job) (gw : List Dict) (d : Dict)
    (hst : dget (j.statusCall gw).1 "status" (.vDict []) = .vDict d)
    (hact : truthy (dlook d "active") = false)
    (hterm : (d.lookup "succeeded").isSome = true ∨ (d.lookup "failed").isSome = true) :
    Job.statusCall (j.statusCall gw).2.1 (j.statusCall gw).2.2.1 =
      ((j.statusCall gw).1, (j.statusCall gw).2.1, (j.statusCall gw).2.2.1, 0) := by
  have hd : d ≠ [] := by
    rcases hterm with h | h
    · exact lookup_isSome_ne_nil h
    · exact lookup_isSome_ne_nil h
  simp only [Job.statusCall] at hst ⊢
  by_cases hc : statusCacheTruthy j
  · rw [Job.info_hit j gw hc] at hst ⊢
    exact Job.info_hit j gw hc
  · have hc' : (statusCacheTruthy j && true) = false := by simp [hc]
    rw [Job.info_miss j true gw hc'] at hst ⊢
    dsimp only at hst ⊢
    have hs : gw.headD [] ≠ [] := by
      intro he
      rw [he] at hst
      simp only [dget, List.lookup] at hst
      have hde : d = [] := by injection hst.symm
      exact hd hde
    rw [hst]
    dsimp only
    simp only [hact, Bool.false_eq_true, if_false]
    have hs' : gw.head?.getD [] ≠ [] := by
      rw [← List.headD_eq_head?]
      exact hs
    have hct : statusCacheTruthy { j with status := some (gw.headD []) } = true := by
      simp [statusCacheTruthy, hs']
    rw [Job.info_hit _ _ hct]
    simp

/-- Witness for C1 at a concrete terminal response: a fresh job, one gateway
response whose status is `{"active": None, "succeeded": 1}`. -/
theorem c1_terminal_snapshot_cached_witness :
    (dget ((Job.init "j" "default").statusCall
        [[("status", .vDict [("active", .vNone), ("succeeded", .vInt 1)])]]).1
        "status" (.vDict []) = .vDict [("active", .vNone), ("succeeded", .vInt 1)]) ∧
    truthy (dlook [("active", .vNone), ("succeeded", .vInt 1)] "active") = false ∧
    Job.statusCall ((Job.init "j" "default").statusCall
        [[("status", .vDict [("active", .vNone), ("succeeded", .vInt 1)])]]).2.1
      (((Job.init "j" "default").statusCall
        [[("status", .vDict [("active", .vNone), ("succeeded", .vInt 1)])]]).2.2.1) =
      (((Job.init "j" "default").statusCall
          [[("status", .vDict [("active", .vNone), ("succeeded", .vInt 1)])]]).1,
       ((Job.init "j" "default").statusCall
          [[("status", .vDict [("active", .vNone), ("succeeded", .vInt 1)])]]).2.1,
       ((Job.init "j" "default").statusCall
          [[("status", .vDict [("active", .vNone), ("succeeded", .vInt 1)])]]).2.2.1,
       0) :=
  ⟨rfl, rfl,
   c1_terminal_snapshot_cached (Job.init "j" "default")
     [[("status", .vDict [("active", .vNone), ("succeeded", .vInt 1)])]]
     [("active", .vNone), ("succeeded", .vInt 1)] rfl rfl (Or.inl rfl)⟩

/-! ## C7: create with no containers fails locally -/

/-- C7: for every Job whose container list is empty, `create()` raises the
validation error immediately, performs no Cluster Gateway call (0 requests,
script untouched), and leaves the Job's local state unchanged. -/
theorem c7_create_empty_containers_validation (j : Job)
    (job_spec pod_spec : Option Dict) (gw : List Dict)
    (h : j.containers = []) :
    j.create job_spec pod_spec gw =
      (.error "Containers not found. Use add_containers() to specify containers before creating the job.",
       j, gw, 0) := by
  simp [Job.create, h]

/-- Witness for C7: a freshly constructed job has no containers. -/
theorem c7_create_empty_containers_validation_witness :
    (Job.init "job" "default").containers = [] ∧
    (Job.init "job" "default").create none none [[("kind", .vStr "Job")]] =
      (.error "Containers not found. Use add_containers() to specify containers before creating the job.",
       Job.init "job" "default", [[("kind", .vStr "Job")]], 0) :=
  ⟨rfl, c7_create_empty_containers_validation (Job.init "job" "default") none none
     [[("kind", .vStr "Job")]] rfl⟩

/-! ## C9: can an error payload be cached as the terminal snapshot? -/

/-- C9 counterexample: an `ApiException` whose decoded body itself carries a
`status` mapping.  `api_request` merges the body over the synthesized payload,
so the payload's `status` field is a mapping (not the integer HTTP status),
and `info()` caches this error payload as the terminal snapshot. -/
theorem c9_error_payload_poisons_cache :
    api_request (.exc 500 "Internal Server Error" "hdrs" [("status", .vDict [])]) =
      [("status", .vDict []), ("error", .vStr "Internal Server Error"),
       ("headers", .vStr "hdrs")] ∧
    ((Job.init "j" "default").info true
        [api_request (.exc 500 "Internal Server Error" "hdrs" [("status", .vDict [])])]).2.1.status =
      some [("status", .vDict []), ("error", .vStr "Internal Server Error"),
            ("headers", .vStr "hdrs")] :=
  ⟨rfl, rfl⟩

/-- C9 amended: for every gateway error payload whose `status` field is not
overridden by the decoded error body — so it remains the integer HTTP status
`e.status` — `info()` leaves the cached status unchanged, whatever the cache
state and `use_cache` flag; only a body that itself smuggles a `status`
mapping can poison the terminal-state cache. -/
theorem c9_integer_status_never_cached (st : Int) (reason headers : String)
    (body : Dict) (hb : body.lookup "status" = none) :
    dget (api_request (.exc st reason headers body)) "status" (.vDict []) = .vInt st ∧
    ∀ (j : Job) (uc : Bool) (rest : List Dict),
      (j.info uc (api_request (.exc st reason headers body) :: rest)).2.1.status = j.status := by
  have hfield : dget (api_request (.exc st reason headers body)) "status" (.vDict []) = .vInt st := by
    simp [api_request, dictUpdate, dget, hb, List.lookup]
  refine ⟨hfield, fun j uc rest => ?_⟩
  by_cases hcc : (statusCacheTruthy j && uc) = true
  · simp [Job.info, hcc]
  · rw [Job.info_miss j uc _ (by simpa using hcc)]
    have hh : (api_request (.exc st reason headers body) :: rest).headD [] =
        api_request (.exc st reason headers body) := rfl
    rw [hh, hfield]

/-- Witness for C9's amended theorem at a concrete kubernetes-style error body
(no `status` key in the body). -/
theorem c9_integer_status_never_cached_witness :
    ([("message", .vStr "jobs.batch \x22j\x22 not found"), ("reason", .vStr "NotFound")] :
        Dict).lookup "status" = none ∧
    dget (api_request (.exc 404 "Not Found" "hdrs"
        [("message", .vStr "jobs.batch \x22j\x22 not found"), ("reason", .vStr "NotFound")]))
      "status" (.vDict []) = .vInt 404 ∧
    ((Job.init "j" "default").info true
        [api_request (.exc 404 "Not Found" "hdrs"
          [("message", .vStr "jobs.batch \x22j\x22 not found"), ("reason", .vStr "NotFound")])]).2.1.status =
      (Job.init "j" "default").status :=
  ⟨rfl,
   (c9_integer_status_never_cached 404 "Not Found" "hdrs"
      [("message", .vStr "jobs.batch \x22j\x22 not found"), ("reason", .vStr "NotFound")] rfl).1,
   (c9_integer_status_never_cached 404 "Not Found" "hdrs"
      [("message", .vStr "jobs.batch \x22j\x22 not found"), ("reason", .vStr "NotFound")] rfl).2
     (Job.init "j" "default") true []⟩

/-! ## C6: does per-pod aggregation ever return None? -/

/-- C6 (code bug): the source's docstring promises "None if there is an
error", and the claim says `None` is returned when every attempted container's
fetch yields a non-string, non-message-bearing result.  But the
`isinstance(pod_logs, dict)` guard runs after `join`, which always produces a
string, so the `None` branch is unreachable: with a single container whose log
fetch is an error payload without a `message`, `Pod.logs` returns the empty
string, not `None`. -/
theorem c6_all_failed_fetches_yield_empty_string :
    Pod.logs [.vDict [("status", .vInt 404), ("error", .vStr "Not Found"),
                          ("headers", .vStr "hdrs")]] = .ok (some "") :=
  rfl

/-! ## C8: generated job names -/

theorem subRuns_chars (l : List Char) :
    ∀ c ∈ subRuns l, isAlnum c = true ∨ c = '-' := by
  induction l using subRuns.induct with
  | case1 =>
    intro c hc
    simp [subRuns] at hc
  | case2 d rest hd ih =>
    intro c hc
    rw [subRuns, if_pos hd] at hc
    rcases List.mem_cons.mp hc with h | h
    · exact Or.inl (h ▸ hd)
    · exact ih c h
  | case3 d rest hd ih =>
    intro c hc
    rw [subRuns, if_neg hd] at hc
    rcases List.mem_cons.mp hc with h | h
    · exact Or.inr h
    · exact ih c h

theorem pyLowerChar_nameChar {c : Char} (h : isAlnum c = true ∨ c = '-') :
    isNameChar (pyLowerChar c) = true := by
  rw [pyLowerChar]
  by_cases hu : (65 ≤ c.toNat && c.toNat ≤ 90) = true
  · rw [if_pos hu]
    simp only [Bool.and_eq_true, decide_eq_true_eq] at hu
    have hv : (c.toNat + 32).isValidChar := Or.inl (by omega)
    have ht : (Char.ofNat (c.toNat + 32)).toNat = c.toNat + 32 := by
      unfold Char.ofNat
      rw [dif_pos hv]
      rfl
    simp only [isNameChar, ht, Bool.or_eq_true, Bool.and_eq_true, decide_eq_true_eq]
    omega
  · rw [if_neg hu]
    simp only [Bool.and_eq_true, decide_eq_true_eq, not_and, not_le] at hu
    rcases h with h | h
    · simp only [isAlnum, Bool.or_eq_true, Bool.and_eq_true, decide_eq_true_eq] at h
      simp only [isNameChar, Bool.or_eq_true, Bool.and_eq_true, decide_eq_true_eq]
      omega
    · subst h
      decide

theorem ascii_lowercase_ok : ∀ c ∈ ascii_lowercase, isNameChar c = true ∧ c ≠ '-' := by
  decide

/-- C8: for every prefix, the generated job name uses only the cluster
resource-name alphabet (lowercase letters, digits, hyphens), its random
portion contains no hyphen (hence no leading/trailing hyphen there), and its
length is `len(normalizedPrefix) + 1 + n` for a non-empty prefix and exactly
`n` for the empty prefix, where the normalised prefix is the trimmed prefix
with each run of non-alphanumerics replaced by one hyphen, lowercased.  The
`suffix` hypothesis states exactly what `random.choice(string.ascii_lowercase)`
repeated `n` times guarantees. -/
theorem c8_generate_job_name_grammar_and_length (pfx : String) (n : Nat)
    (suffix : List Char) (hlen : suffix.length = n)
    (hsuf : ∀ c ∈ suffix, c ∈ ascii_lowercase) :
    (∀ c ∈ (Job.generate_job_name pfx suffix).toList, isNameChar c = true) ∧
    (∀ c ∈ suffix, c ≠ '-') ∧
    (Job.generate_job_name pfx suffix).length =
      (if pfx = "" then n else (normalizePrefix pfx).length + 1 + n) := by
  refine ⟨?_, fun c hc => (ascii_lowercase_ok c (hsuf c hc)).2, ?_⟩
  · intro c hc
    rw [Job.generate_job_name] at hc
    by_cases hp : pfx = ""
    · simp only [hp, bne_self_eq_false, Bool.false_eq_true, if_false] at hc
      simp only [String.toList, String.data_append] at hc
      rcases List.mem_append.mp hc with h | h
      · exact absurd h (List.not_mem_nil c)
      · exact (ascii_lowercase_ok c (hsuf c h)).1
    · have hp' : (pfx != "") = true := by simpa using hp
      simp only [hp', if_true, String.toList, String.data_append] at hc
      rcases List.mem_append.mp hc with h | h
      · rcases List.mem_append.mp h with h' | h'
        · rcases List.mem_map.mp h' with ⟨c₀, hc₀, rfl⟩
          exact pyLowerChar_nameChar (subRuns_chars _ c₀ hc₀)
        · have : c = '-' := by simpa using h'
          subst this
          decide
      · exact (ascii_lowercase_ok c (hsuf c h)).1
  · rw [Job.generate_job_name]
    by_cases hp : pfx = ""
    · simp [hp, hlen]
    · have hp' : (pfx != "") = true := by simpa using hp
      simp only [hp', if_true, if_neg hp, String.length_append]
      simp [normalizePrefix, hlen]
      decide

/-- Witness for C8 at `prefix = " My Job!! v2 "`, `n = 6`,
suffix `"abcdef"` (a possible draw of six lowercase letters). -/
theorem c8_generate_job_name_grammar_and_length_witness :
    ("abcdef".toList.length = 6) ∧
    (∀ c ∈ "abcdef".toList, c ∈ ascii_lowercase) ∧
    (∀ c ∈ (Job.generate_job_name " My Job!! v2 " "abcdef".toList).toList,
      isNameChar c = true) ∧
    (∀ c ∈ "abcdef".toList, c ≠ '-') ∧
    (Job.generate_job_name " My Job!! v2 " "abcdef".toList).length =
      (if (" My Job!! v2 " : String) = "" then 6
       else (normalizePrefix " My Job!! v2 ").length + 1 + 6) :=
  ⟨rfl, by decide,
   (c8_generate_job_name_grammar_and_length " My Job!! v2 " 6 "abcdef".toList rfl
      (by decide)).1,
   (c8_generate_job_name_grammar_and_length " My Job!! v2 " 6 "abcdef".toList rfl
      (by decide)).2.1,
   (c8_generate_job_name_grammar_and_length " My Job!! v2 " 6 "abcdef".toList rfl
      (by decide)).2.2⟩

/-! ## C4: log aggregation short-circuits on the first succeeded pod -/

theorem logsLoop_first_success (infos₁ : List Dict) (pi : Dict)
    (infos₂ : List Dict) (acc : Val)
    (hno : ∀ i ∈ infos₁, isSucceededInfo i = false)
    (hs : isSucceededInfo pi = true) :
    logsLoop (infos₁ ++ pi :: infos₂) acc = (dget pi "logs" .vNone, infos₁.length + 1) := by
  induction infos₁ generalizing acc with
  | nil =>
    simp only [List.nil_append, logsLoop]
    rw [isSucceededInfo] at hs
    rw [if_pos hs]
    rfl
  | cons i rest ih =>
    have hi : isSucceededInfo i = false := hno i (List.mem_cons_self i rest)
    have hrest : ∀ x ∈ rest, isSucceededInfo x = false :=
      fun x hx => hno x (List.mem_cons_of_mem i hx)
    simp only [List.cons_append, logsLoop]
    rw [isSucceededInfo] at hi
    rw [if_neg (by simp [hi])]
    simp only [List.append_eq]
    rw [ih (dget i "logs" .vNone) hrest]
    simp [List.length_cons]

theorem logsLoop_no_success (infos : List Dict) (acc : Val) (hne : infos ≠ [])
    (hno : ∀ i ∈ infos, isSucceededInfo i = false) :
    logsLoop infos acc = (dget (infos.getLast hne) "logs" .vNone, infos.length) := by
  induction infos generalizing acc with
  | nil => exact absurd rfl hne
  | cons i rest ih =>
    have hi : isSucceededInfo i = false := hno i (List.mem_cons_self i rest)
    have hrest : ∀ x ∈ rest, isSucceededInfo x = false :=
      fun x hx => hno x (List.mem_cons_of_mem i hx)
    rw [logsLoop]
    rw [isSucceededInfo] at hi
    rw [if_neg (by simp [hi])]
    cases rest with
    | nil => simp [logsLoop, List.getLast]
    | cons r rs =>
      rw [ih (dget i "logs" .vNone) (by simp) hrest]
      simp [List.getLast]

/-- C4: with no cached log, `logs()` (default cache) short-circuits on
success — when the discovered pods are `infos₁ ++ [pi] ++ infos₂` with no pod
of `infos₁` succeeded and `pi` reporting phase exactly `"Succeeded"`, the
returned log is `pi`'s aggregated log and exactly `len(infos₁) + 1` pods had
their info (and hence their log endpoints) queried, so no pod after `pi` in
discovery order is ever queried — and when no pod succeeded, the last pod's
log is returned after querying every pod. -/
theorem c4_logs_short_circuit_on_success (j : Job) (gw : List Dict)
    (hnc : truthy j.logs = false) :
    (∀ (infos₁ : List Dict) (pi : Dict) (infos₂ : List Dict),
      (∀ i ∈ infos₁, isSucceededInfo i = false) → isSucceededInfo pi = true →
      (j.logsCall true (infos₁ ++ pi :: infos₂) gw).1 = dget pi "logs" .vNone ∧
      (j.logsCall true (infos₁ ++ pi :: infos₂) gw).2.2.2.2 = infos₁.length + 1) ∧
    (∀ (infos : List Dict) (hne : infos ≠ []),
      (∀ i ∈ infos, isSucceededInfo i = false) →
      (j.logsCall true infos gw).1 = dget (infos.getLast hne) "logs" .vNone ∧
      (j.logsCall true infos gw).2.2.2.2 = infos.length) := by
  have hcond : (truthy j.logs && true) = false := by simp [hnc]
  constructor
  · intro infos₁ pi infos₂ hno hs
    rw [Job.logsCall, if_neg (by simp [hcond])]
    rw [logsLoop_first_success infos₁ pi infos₂ .vNone hno hs]
    constructor <;> rfl
  · intro infos hne hno
    rw [Job.logsCall, if_neg (by simp [hcond])]
    rw [logsLoop_no_success infos .vNone hne hno]
    constructor <;> rfl

/-- Witness for C4: three discovered pods, the second succeeded — the second
pod's log is returned and only two pods are queried. -/
theorem c4_logs_short_circuit_on_success_witness :
    truthy (Job.init "j" "default").logs = false ∧
    ((Job.init "j" "default").logsCall true
        [[("status", .vDict [("phase", .vStr "Running")]), ("logs", .vStr "one")],
         [("status", .vDict [("phase", .vStr "Succeeded")]), ("logs", .vStr "two")],
         [("status", .vDict [("phase", .vStr "Pending")]), ("logs", .vStr "three")]]
        []).1 = .vStr "two" ∧
    ((Job.init "j" "default").logsCall true
        [[("status", .vDict [("phase", .vStr "Running")]), ("logs", .vStr "one")],
         [("status", .vDict [("phase", .vStr "Succeeded")]), ("logs", .vStr "two")],
         [("status", .vDict [("phase", .vStr "Pending")]), ("logs", .vStr "three")]]
        []).2.2.2.2 = 2 :=
  ⟨rfl,
   ((c4_logs_short_circuit_on_success (Job.init "j" "default") [] rfl).1
      [[("status", .vDict [("phase", .vStr "Running")]), ("logs", .vStr "one")]]
      [("status", .vDict [("phase", .vStr "Succeeded")]), ("logs", .vStr "two")]
      [[("status", .vDict [("phase", .vStr "Pending")]), ("logs", .vStr "three")]]
      (by decide) (by decide)).1,
   ((c4_logs_short_circuit_on_success (Job.init "j" "default") [] rfl).1
      [[("status", .vDict [("phase", .vStr "Running")]), ("logs", .vStr "one")]]
      [("status", .vDict [("phase", .vStr "Succeeded")]), ("logs", .vStr "two")]
      [[("status", .vDict [("phase", .vStr "Pending")]), ("logs", .vStr "three")]]
      (by decide) (by decide)).2⟩

/-! ## C5: is the aggregated log of an inactive job cached permanently? -/

/-- A job whose status cache already holds a terminal snapshot, used to
examine the log cache in isolation. -/
def jobTerminalCached : Job :=
  { Job.init "j" "default" with
    status := some [("status", .vDict [("succeeded", .vInt 1)])] }

/-- C5 counterexample: with a terminal cached status and no discoverable pods,
the first `logs()` call aggregates `None`, observes the job inactive and
assigns `None` to the log cache — but the cache test
`if self.__logs and use_cache` is falsy for `None`, so the next default-cache
`logs()` call re-enumerates pods (one pod-list query, component 4 = 1) instead
of returning the cached value without cluster traffic. -/
theorem c5_none_log_not_served_from_cache :
    (jobTerminalCached.logsCall true [] []).1 = .vNone ∧
    (jobTerminalCached.logsCall true [] []).2.1.logs = .vNone ∧
    (Job.logsCall (jobTerminalCached.logsCall true [] []).2.1 true [] []).2.2.2.1 = 1 :=
  ⟨rfl, rfl, rfl⟩

/-- `logs()` answered from the cache exactly when the cached log is truthy. -/
theorem Job.logsCall_hit (j : Job) (infos gw : List Dict)
    (h : truthy j.logs = true) :
    j.logsCall true infos gw = (j.logs, j, gw, 0, 0) := by
  rw [Job.logsCall, if_pos (by simp [h])]

/-- C5 amended: when the job is observed inactive at the end of the
aggregation loop, the resulting log value is stored in the cache; but the
cache short-circuits only a truthy (non-empty string) value — every subsequent
default-cache `logs()` call returns the stored value with no pod-list query
and no pod-info fetches exactly when the stored value is truthy, while a
stored `None` (or empty string) is not served and the next call re-aggregates
(see the counterexample). -/
theorem c5_inactive_log_cached_truthy_served (j : Job) (infos gw : List Dict) :
    (truthy j.logs = false → truthy (j.is_active gw).1 = false →
      (j.logsCall true infos gw).2.1.logs = (j.logsCall true infos gw).1) ∧
    (truthy (j.logsCall true infos gw).2.1.logs = true →
      ∀ (infos' gw' : List Dict),
        Job.logsCall (j.logsCall true infos gw).2.1 true infos' gw' =
          ((j.logsCall true infos gw).2.1.logs, (j.logsCall true infos gw).2.1,
           gw', 0, 0)) := by
  constructor
  · intro h1 h2
    rw [Job.logsCall, if_neg (by simp [h1])]
    dsimp only
    rw [h2]
    simp
  · intro h infos' gw'
    exact Job.logsCall_hit _ infos' gw' h

/-- Witness for C5's amended theorem: a job with a terminal cached status and
one succeeded pod with log `"out"`; the first call stores `"out"`, and the
second call returns it with zero pod-list and pod-info queries. -/
theorem c5_inactive_log_cached_truthy_served_witness :
    truthy jobTerminalCached.logs = false ∧
    truthy (jobTerminalCached.is_active []).1 = false ∧
    (jobTerminalCached.logsCall true
        [[("status", .vDict [("phase", .vStr "Succeeded")]), ("logs", .vStr "out")]]
        []).2.1.logs =
      (jobTerminalCached.logsCall true
        [[("status", .vDict [("phase", .vStr "Succeeded")]), ("logs", .vStr "out")]]
        []).1 ∧
    truthy (jobTerminalCached.logsCall true
        [[("status", .vDict [("phase", .vStr "Succeeded")]), ("logs", .vStr "out")]]
        []).2.1.logs = true ∧
    Job.logsCall (jobTerminalCached.logsCall true
        [[("status", .vDict [("phase", .vStr "Succeeded")]), ("logs", .vStr "out")]]
        []).2.1 true [] [] =
      ((jobTerminalCached.logsCall true
          [[("status", .vDict [("phase", .vStr "Succeeded")]), ("logs", .vStr "out")]]
          []).2.1.logs,
       (jobTerminalCached.logsCall true
          [[("status", .vDict [("phase", .vStr "Succeeded")]), ("logs", .vStr "out")]]
          []).2.1, [], 0, 0) :=
  ⟨rfl, rfl,
   (c5_inactive_log_cached_truthy_served jobTerminalCached
      [[("status", .vDict [("phase", .vStr "Succeeded")]), ("logs", .vStr "out")]]
      []).1 rfl rfl,
   rfl,
   (c5_inactive_log_cached_truthy_served jobTerminalCached
      [[("status", .vDict [("phase", .vStr "Succeeded")]), ("logs", .vStr "out")]]
      []).2 rfl [] []⟩

/-! ## C2: the wait loop polls fresh while active and stops on terminal -/

/-- Invariant of every reachable `__status` cache: it is empty, or it holds a
snapshot whose `status` entry is a mapping with falsy `active` (that is the
only kind of snapshot `info` ever stores). -/
def goodCacheB (j : Job) : Bool :=
  match j.status with
  | none => true
  | some d =>
    match dget d "status" (.vDict []) with
    | .vDict st => !truthy (dlook st "active")
    | _ => false

/-- A fresh job satisfies the cache invariant. -/
theorem goodCacheB_init (n ns : String) : goodCacheB (Job.init n ns) = true := rfl

/-- `info` preserves the cache invariant (it only ever stores snapshots whose
`status` is a mapping with falsy `active`). -/
theorem goodCacheB_info (j : Job) (uc : Bool) (gw : List Dict)
    (hg : goodCacheB j = true) : goodCacheB (j.info uc gw).2.1 = true := by
  by_cases hcc : (statusCacheTruthy j && uc) = true
  · simpa [Job.info, hcc] using hg
  · rw [Job.info_miss j uc gw (by simpa using hcc)]
    dsimp only
    cases hm : dget (gw.headD []) "status" (.vDict []) with
    | vDict st =>
      by_cases ha : truthy (dlook st "active") = true
      · simpa [ha] using hg
      · have ha' : truthy (dlook st "active") = false := by simpa using ha
        simp only [ha', Bool.false_eq_true, if_false]
        rw [List.headD_eq_head?] at hm
        simp [goodCacheB, hm, ha']
    | vNone => simpa [hm] using hg
    | vBool b => simpa [hm] using hg
    | vInt n => simpa [hm] using hg
    | vStr s => simpa [hm] using hg
    | vList xs => simpa [hm] using hg

/-- Under the cache invariant, a status check that observes a truthy `active`
cannot have come from the cache: the cache only holds inactive snapshots.  So
`status()` consumed a gateway response. -/
theorem statusCall_fresh_of_active (j : Job) (gw : List Dict) (st : Dict)
    (hg : goodCacheB j = true)
    (hst : dget (j.statusCall gw).1 "status" (.vDict []) = .vDict st)
    (hact : truthy (dlook st "active") = true) :
    statusCacheTruthy j = false := by
  by_contra hb
  have hcc : statusCacheTruthy j = true := by simpa using hb
  rw [Job.statusCall, Job.info_hit j gw hcc] at hst
  dsimp only at hst
  cases hjs : j.status with
  | none => rw [statusCacheTruthy, hjs] at hcc; exact absurd hcc (by simp)
  | some d =>
    rw [hjs] at hst
    rw [goodCacheB, hjs] at hg
    dsimp only at hg
    simp only [Option.getD_some] at hst
    rw [hst] at hg
    simp only [Bool.not_eq_true'] at hg
    rw [hg] at hact
    exact absurd hact (by simp)

/-- The `wait` body returns as soon as it observes a succeeded, failed, or
no-longer-active status mapping. -/
theorem waitStep_done (j : Job) (gw : List Dict) (st : Dict)
    (hst : dget (j.statusCall gw).1 "status" (.vDict []) = .vDict st)
    (hterm : truthy (dlook st "succeeded") = true ∨ truthy (dlook st "failed") = true ∨
      truthy (dlook st "active") = false) :
    j.waitStep gw = .done (j.statusCall gw).2.1 (j.statusCall gw).2.2.1 := by
  rw [Job.waitStep]
  rw [hst]
  dsimp only
  by_cases h1 : truthy (dlook st "succeeded") = true
  · rw [if_pos h1]
  · rw [if_neg h1]
    by_cases h2 : truthy (dlook st "failed") = true
    · rw [if_pos h2]
    · rw [if_neg h2]
      have h3 : truthy (dlook st "active") = false := by
        rcases hterm with h | h | h
        · exact absurd h h1
        · exact absurd h h2
        · exact h
      rw [if_pos (by simp [h3])]

/-- The `wait` body continues polling exactly when the observed status mapping
is active and neither succeeded nor failed. -/
theorem waitStep_next (j : Job) (gw : List Dict) (st : Dict)
    (hst : dget (j.statusCall gw).1 "status" (.vDict []) = .vDict st)
    (h1 : truthy (dlook st "succeeded") = false)
    (h2 : truthy (dlook st "failed") = false)
    (h3 : truthy (dlook st "active") = true) :
    j.waitStep gw = .next (j.statusCall gw).2.1 (j.statusCall gw).2.2.1 := by
  rw [Job.waitStep]
  rw [hst]
  dsimp only
  rw [if_neg (by simp [h1]), if_neg (by simp [h2]), if_neg (by simp [h3])]

/-- C2: on every `wait` iteration (cache invariant holding, budget not yet
exhausted), after the sleep the controller checks the status and (a) stops and
returns immediately when the observed status mapping is succeeded, failed, or
no longer active; (b) when the job is observed still active, the snapshot came
from a fresh Cluster Gateway query — the response consumed from the script,
one call issued, never the cache (the cache can only hold inactive snapshots)
— and the loop continues with the next iteration, the invariant preserved. -/
theorem c2_wait_fresh_polls_and_stops (j : Job) (gw : List Dict)
    (interval timeout counter : Nat) (hpos : 0 < interval)
    (hg : goodCacheB j = true) (hct : counter < timeout) :
    (∀ st : Dict, dget (j.statusCall gw).1 "status" (.vDict []) = .vDict st →
      (truthy (dlook st "succeeded") = true ∨ truthy (dlook st "failed") = true ∨
        truthy (dlook st "active") = false) →
      Job.waitLoop interval hpos timeout j gw counter =
        ([.sleep interval, .check], .ok ((j.statusCall gw).2.1, (j.statusCall gw).2.2.1))) ∧
    (∀ st : Dict, dget (j.statusCall gw).1 "status" (.vDict []) = .vDict st →
      truthy (dlook st "succeeded") = false → truthy (dlook st "failed") = false →
      truthy (dlook st "active") = true →
      (j.statusCall gw).1 = gw.headD [] ∧
      (j.statusCall gw).2.2.1 = gw.tail ∧
      (j.statusCall gw).2.2.2 = 1 ∧
      goodCacheB (j.statusCall gw).2.1 = true ∧
      Job.waitLoop interval hpos timeout j gw counter =
        (Event.sleep interval :: Event.check ::
          (Job.waitLoop interval hpos timeout (j.statusCall gw).2.1
            (j.statusCall gw).2.2.1 (counter + interval)).1,
         (Job.waitLoop interval hpos timeout (j.statusCall gw).2.1
            (j.statusCall gw).2.2.1 (counter + interval)).2)) := by
  constructor
  · intro st hst hterm
    rw [Job.waitLoop, dif_pos hct, waitStep_done j gw st hst hterm]
  · intro st hst h1 h2 h3
    have hfresh : statusCacheTruthy j = false :=
      statusCall_fresh_of_active j gw st hg hst h3
    have hmiss := Job.info_miss j true gw (by simp [hfresh])
    refine ⟨?_, ?_, ?_, goodCacheB_info j true gw hg, ?_⟩
    · rw [Job.statusCall, hmiss]
    · rw [Job.statusCall, hmiss]
    · rw [Job.statusCall, hmiss]
    · rw [Job.waitLoop, dif_pos hct, waitStep_next j gw st hst h1 h2 h3]

/-- Witness for C2 at a concrete run: fresh job, one response whose status is
`{"succeeded": 1}`, interval 1, timeout 5 — the loop stops after the first
sleep-and-check. -/
theorem c2_wait_fresh_polls_and_stops_witness :
    goodCacheB (Job.init "j" "default") = true ∧ 0 < 5 ∧
    Job.waitLoop 1 Nat.one_pos 5 (Job.init "j" "default")
        [[("status", .vDict [("succeeded", .vInt 1)])]] 0 =
      ([.sleep 1, .check],
       .ok (((Job.init "j" "default").statusCall
               [[("status", .vDict [("succeeded", .vInt 1)])]]).2.1,
            ((Job.init "j" "default").statusCall
               [[("status", .vDict [("succeeded", .vInt 1)])]]).2.2.1)) :=
  ⟨rfl, by decide,
   (c2_wait_fresh_polls_and_stops (Job.init "j" "default")
      [[("status", .vDict [("succeeded", .vInt 1)])]] 1 5 0 Nat.one_pos rfl
      (by decide)).1 [("succeeded", .vInt 1)] rfl (Or.inl rfl)⟩

/-! ## C3: a gateway error during wait's polling -/

/-- C3 (code bug): `api_request` does represent a Cluster Gateway error as a
structured payload instead of raising, but `wait` then evaluates
`self.status().get("status", {}).get("succeeded")` — the payload's `status`
field is the integer HTTP status, which has no `.get`, so the first poll after
a gateway error raises `AttributeError` instead of treating the payload as
"no data" and returning the Job handle.  Concretely: one poll against a
404 `ApiException` with a kubernetes-style body crashes. -/
theorem c3_wait_crashes_on_gateway_error :
    api_request (.exc 404 "Not Found" "hdrs"
        [("message", .vStr "jobs.batch not found"), ("reason", .vStr "NotFound")]) =
      [("status", .vInt 404), ("error", .vStr "Not Found"), ("headers", .vStr "hdrs"),
       ("message", .vStr "jobs.batch not found"), ("reason", .vStr "NotFound")] ∧
    Job.wait (Job.init "j" "default")
        [api_request (.exc 404 "Not Found" "hdrs"
          [("message", .vStr "jobs.batch not found"), ("reason", .vStr "NotFound")])]
        1 Nat.one_pos 10 =
      ([.sleep 1, .check], .error .attributeError) := by
  refine ⟨rfl, ?_⟩
  simp [Job.wait, Job.waitLoop, Job.waitStep, Job.statusCall, Job.info, Job.init,
    statusCacheTruthy, dget, dlook, truthy, List.lookup, api_request, dictUpdate]

/-! ## C10: sleep-first structure and the iteration bound of wait -/

/-- The event trace is a sequence of (sleep `i`, status-check) pairs: every
status check is immediately preceded by a full-interval sleep, and the trace
starts with a sleep when it is non-empty. -/
def sleepThenCheck (i : Nat) : List Event → Bool
  | [] => true
  | .sleep m :: .check :: rest => m == i && sleepThenCheck i rest
  | _ => false

/-- The number of status checks recorded in a trace. -/
def countChecks (tr : List Event) : Nat :=
  tr.countP fun e => e == Event.check

/-- The structural facts about a `waitLoop` run, by induction on the remaining
budget: the trace is sleep-then-check pairs, and the number of checks `c`
satisfies `c * interval ≤ (timeout - counter) + interval - 1`. -/
theorem waitLoop_trace_props (interval : Nat) (hpos : 0 < interval)
    (timeout : Nat) (fuel : Nat) :
    ∀ (j : Job) (gw : List Dict) (counter : Nat), timeout - counter ≤ fuel →
      sleepThenCheck interval (Job.waitLoop interval hpos timeout j gw counter).1 = true ∧
      countChecks (Job.waitLoop interval hpos timeout j gw counter).1 * interval ≤
        (timeout - counter) + interval - 1 := by
  induction fuel with
  | zero =>
    intro j gw counter hf
    have hnt : ¬ counter < timeout := by omega
    rw [Job.waitLoop, dif_neg hnt]
    refine ⟨rfl, ?_⟩
    simp [countChecks]
  | succ fuel ih =>
    intro j gw counter hf
    by_cases hct : counter < timeout
    · rw [Job.waitLoop, dif_pos hct]
      cases hstep : j.waitStep gw with
      | done j₁ gw₁ =>
        refine ⟨by simp [sleepThenCheck], ?_⟩
        have hcount : countChecks [Event.sleep interval, Event.check] = 1 := by
          simp [countChecks]
        rw [hcount, Nat.one_mul]
        omega
      | raised =>
        refine ⟨by simp [sleepThenCheck], ?_⟩
        have hcount : countChecks [Event.sleep interval, Event.check] = 1 := by
          simp [countChecks]
        rw [hcount, Nat.one_mul]
        omega
      | next j₁ gw₁ =>
        dsimp only
        have hrec := ih j₁ gw₁ (counter + interval) (by omega)
        refine ⟨by simp [sleepThenCheck, hrec.1], ?_⟩
        have hcount : countChecks (Event.sleep interval :: Event.check ::
            (Job.waitLoop interval hpos timeout j₁ gw₁ (counter + interval)).1) =
            countChecks (Job.waitLoop interval hpos timeout j₁ gw₁ (counter + interval)).1 + 1 := by
          simp [countChecks]
        rw [hcount, Nat.succ_mul]
        have h2 := hrec.2
        rcases Nat.lt_or_ge (timeout - counter) interval with hTi | hTi
        · have hT0 : timeout - (counter + interval) = 0 := by omega
          rw [hT0] at h2
          have hcc : countChecks (Job.waitLoop interval hpos timeout j₁ gw₁ (counter + interval)).1 = 0 := by
            by_contra hne
            have hone : 1 ≤ countChecks (Job.waitLoop interval hpos timeout j₁ gw₁ (counter + interval)).1 :=
              Nat.one_le_iff_ne_zero.mpr hne
            have hge : interval ≤
                countChecks (Job.waitLoop interval hpos timeout j₁ gw₁ (counter + interval)).1 * interval := by
              calc interval = 1 * interval := (Nat.one_mul _).symm
                _ ≤ _ := Nat.mul_le_mul_right _ hone
            omega
          rw [hcc, Nat.zero_mul]
          omega
        · have heq : timeout - (counter + interval) = timeout - counter - interval := by omega
          rw [heq] at h2
          generalize countChecks (Job.waitLoop interval hpos timeout j₁ gw₁ (counter + interval)).1 * interval = A at h2 ⊢
          omega
    · rw [Job.waitLoop, dif_neg hct]
      refine ⟨rfl, ?_⟩
      simp [countChecks]

/-- C10: for every positive poll interval, `wait` sleeps one full interval
before each status check — in particular before the first, so it blocks at
least one interval even when the job is already terminal (for a positive
timeout the trace starts with a sleep) — and performs at most
`⌈timeout / interval⌉` iterations. -/
theorem c10_wait_sleeps_first_and_bounded (j : Job) (gw : List Dict)
    (interval timeout : Nat) (hpos : 0 < interval) :
    sleepThenCheck interval (Job.wait j gw interval hpos timeout).1 = true ∧
    (0 < timeout →
      (Job.wait j gw interval hpos timeout).1.head? = some (.sleep interval)) ∧
    countChecks (Job.wait j gw interval hpos timeout).1 ≤
      (timeout + interval - 1) / interval := by
  have hp := waitLoop_trace_props interval hpos timeout timeout j gw 0 (by omega)
  refine ⟨?_, ?_, ?_⟩
  · rw [Job.wait]
    exact hp.1
  · intro ht
    rw [Job.wait, Job.waitLoop, dif_pos ht]
    cases hs : j.waitStep gw <;> rfl
  · rw [Job.wait, Nat.le_div_iff_mul_le hpos]
    simpa using hp.2

/-- Witness for C10: interval 2, timeout 5, an empty response script (so the
first check observes "no status", a non-active snapshot, and stops): the trace
is one sleep-check pair, starting with `sleep 2`, and `1 ≤ ⌈5 / 2⌉ = 3`. -/
theorem c10_wait_sleeps_first_and_bounded_witness :
    (0 < 2) ∧
    sleepThenCheck 2 (Job.wait (Job.init "j" "default") [] 2 (by decide) 5).1 = true ∧
    (Job.wait (Job.init "j" "default") [] 2 (by decide) 5).1.head? =
      some (.sleep 2) ∧
    countChecks (Job.wait (Job.init "j" "default") [] 2 (by decide) 5).1 ≤
      (5 + 2 - 1) / 2 :=
  ⟨by decide,
   (c10_wait_sleeps_first_and_bounded (Job.init "j" "default") [] 2 5 (by decide)).1,
   (c10_wait_sleeps_first_and_bounded (Job.init "j" "default") [] 2 5 (by decide)).2.1
     (by decide),
   (c10_wait_sleeps_first_and_bounded (Job.init "j" "default") [] 2 5 (by decide)).2.2⟩
